import Mathlib

/-
Verification of the aggregation and progression-gating engine of the
wound-care simulation backend (`Backend_WoundCareSim`).

The embedding below translates, in shallow style, the modules the claims
touch:

  * `app/utils/scoring.py`                (namespace `scoring`)
  * `app/core/coordinator.py`             (namespace `coordinator`)
  * `app/services/session_manager.py` and the progression gate
    `process_step_result` of `app/services/evaluation_service.py`
    (namespace `session`)

Python floats are modelled as exact rationals (`ℚ`); Python dictionaries
that are built with insertion/overwrite are modelled as association lists
with a first-occurrence-replacing insert; Python `for` loops that build
accumulators are modelled as structural recursions carrying the same
accumulators.
-/

namespace WoundCareSim

/-- Python `round(q, 3)` uses round-half-to-even on the scaled value; this
is the integer part of that rounding. -/
def pyRoundHalfEven (q : ℚ) : ℤ :=
  let f := ⌊q⌋
  let r := q - (f : ℚ)
  if r < 1/2 then f
  else if 1/2 < r then f + 1
  else if f % 2 = 0 then f else f + 1

/-- Python `round(q, 3)`. -/
def round3 (q : ℚ) : ℚ := (pyRoundHalfEven (q * 1000) : ℚ) / 1000

/-- Insert into an association list with Python `dict` semantics: replace
the value at the first matching key (keeping its position), otherwise
append at the end. -/
def dictInsert {α : Type} : List (String × α) → String → α → List (String × α)
  | [], k, v => [(k, v)]
  | (k', v') :: rest, k, v =>
    if k' = k then (k, v) :: rest else (k', v') :: dictInsert rest k v

/-- Python `needle in hay` on lists of characters (contiguous substring). -/
def listContainsSub (needle : List Char) : List Char → Bool
  | [] => needle.isEmpty
  | c :: rest => needle.isPrefixOf (c :: rest) || listContainsSub needle rest

/-- Python `needle in hay` for strings. -/
def strContainsSub (hay needle : String) : Bool :=
  listContainsSub needle.toList hay.toList

/-- Python `str.lower()`: character-wise ASCII lowercasing, matching the
Python behaviour on the ASCII issue texts and keywords involved. -/
def pyLower (s : String) : String := ⟨s.data.map Char.toLower⟩

/-- Python `max(items, key=lambda x: x[1])`: the first pair of maximal
second component (`none` on the empty list, where Python raises). -/
def pyMaxByVal (l : List (String × ℚ)) : Option (String × ℚ) :=
  match l with
  | [] => none
  | x :: t => some (t.foldl (fun best y => if y.2 > best.2 then y else best) x)

namespace scoring

/-- The evaluator record consumed by `app/utils/scoring.py`.  The fields
are those of `EvaluatorResponse` in `app/utils/schema.py`, together with
`verdict`, which `scoring.py` reads from the record even though the
pydantic model does not declare it. -/
structure EvaluatorResponse where
  agent_name : String
  verdict : String
  confidence : ℚ
  step : String := ""
  strengths : List String := []
  issues_detected : List String := []
  missed_points : List String := []
  explanation : String := ""
  references : List String := []
deriving DecidableEq

/-- `VERDICT_SCORE_MAP` from `scoring.py`. -/
def VERDICT_SCORE_MAP : List (String × ℚ) :=
  [("Appropriate", 1),
   ("Partially Appropriate", 3/5),
   ("Inappropriate", 0)]

/-- `STEP_WEIGHTS` from `scoring.py` (per-step agent importance). -/
def STEP_WEIGHTS : List (String × List (String × ℚ)) :=
  [("HISTORY",
     [("CommunicationAgent", 1/2), ("KnowledgeAgent", 2/5), ("ClinicalAgent", 1/10)]),
   ("ASSESSMENT",
     [("CommunicationAgent", 3/10), ("KnowledgeAgent", 7/10), ("ClinicalAgent", 0)]),
   ("CLEANING",
     [("CommunicationAgent", 1/10), ("KnowledgeAgent", 1/10), ("ClinicalAgent", 4/5)]),
   ("DRESSING",
     [("CommunicationAgent", 1/10), ("KnowledgeAgent", 1/10), ("ClinicalAgent", 4/5)])]

/-- `STEP_THRESHOLD` from `scoring.py`. -/
def STEP_THRESHOLD : List (String × ℚ) :=
  [("HISTORY", 3/5), ("ASSESSMENT", 3/5), ("CLEANING", 7/10), ("DRESSING", 7/10)]

/-- `score_single_evaluation`: verdict base score times confidence;
unknown verdicts default to `0.0`. -/
def score_single_evaluation (ev : EvaluatorResponse) : ℚ :=
  (List.lookup ev.verdict VERDICT_SCORE_MAP).getD 0 * ev.confidence

/-- Result record of `aggregate_scores`. -/
structure AggregateResult where
  agent_scores : List (String × ℚ)
  composite_score : ℚ
deriving DecidableEq

/-- The `for ev in evaluations` loop of `aggregate_scores`, carrying the
`agent_scores` dict and the running `composite_score`. -/
def aggregate_loop (weights : List (String × ℚ)) :
    List EvaluatorResponse → List (String × ℚ) → ℚ → List (String × ℚ) × ℚ
  | [], agent_scores, composite_score => (agent_scores, composite_score)
  | ev :: rest, agent_scores, composite_score =>
    let score := score_single_evaluation ev
    let agent_scores := dictInsert agent_scores ev.agent_name score
    let weight := (List.lookup ev.agent_name weights).getD 0
    aggregate_loop weights rest agent_scores (composite_score + score * weight)

/-- `aggregate_scores` from `scoring.py`: per-agent scores and the
rounded weighted sum.  Unknown steps yield an empty weight dict. -/
def aggregate_scores (evaluations : List EvaluatorResponse) (current_step : String) :
    AggregateResult :=
  let weights := (List.lookup current_step STEP_WEIGHTS).getD []
  let acc := aggregate_loop weights evaluations [] 0
  { agent_scores := acc.1, composite_score := round3 acc.2 }

/-- Result record of `check_readiness`. -/
structure ReadinessResult where
  ready_for_next_step : Bool
  blocking_issues : List String
  threshold : ℚ
deriving DecidableEq

/-- The safety-first loop of `check_readiness`: any `Inappropriate`
verdict from the `ClinicalAgent` during `CLEANING`/`DRESSING` appends a
blocking message. -/
def blocking_loop (current_step : String) : List EvaluatorResponse → List String
  | [] => []
  | ev :: rest =>
    (if ev.verdict == "Inappropriate" &&
        (current_step == "CLEANING" || current_step == "DRESSING") &&
        ev.agent_name == "ClinicalAgent"
     then ["Critical clinical issue detected by " ++ ev.agent_name]
     else []) ++ blocking_loop current_step rest

/-- `check_readiness` from `scoring.py`.  The threshold lookup defaults
to `1.0` for unknown steps; readiness needs the composite at or above the
threshold and no blocking issue. -/
def check_readiness (evaluations : List EvaluatorResponse) (current_step : String)
    (composite_score : ℚ) : ReadinessResult :=
  let blocking_issues := blocking_loop current_step evaluations
  let threshold := (List.lookup current_step STEP_THRESHOLD).getD 1
  let ready := decide (threshold ≤ composite_score) && blocking_issues.isEmpty
  { ready_for_next_step := ready
    blocking_issues := blocking_issues
    threshold := threshold }

end scoring

namespace coordinator

/-- One evaluator payload as consumed by `app/core/coordinator.py`: the
fields the coordinator reads from each evaluation dict (it never reads a
verdict). -/
structure AgentEval where
  agent : String
  confidence : ℚ
  strengths : List String := []
  issues_detected : List String := []
  missed_points : List String := []
  explanation : String := ""
deriving DecidableEq

/-- `STEP_WEIGHTS` from `coordinator.py` (distinct from the table in
`scoring.py`). -/
def STEP_WEIGHTS : List (String × List (String × ℚ)) :=
  [("HISTORY", [("communication", 1/2), ("knowledge", 2/5), ("clinical", 1/10)]),
   ("ASSESSMENT", [("communication", 1/5), ("knowledge", 3/5), ("clinical", 1/5)]),
   ("CLEANING", [("communication", 1/10), ("knowledge", 1/5), ("clinical", 7/10)]),
   ("DRESSING", [("communication", 1/10), ("knowledge", 1/5), ("clinical", 7/10)])]

/-- `READINESS_THRESHOLDS` from `coordinator.py`. -/
def READINESS_THRESHOLDS : List (String × ℚ) :=
  [("HISTORY", 3/5), ("ASSESSMENT", 13/20), ("CLEANING", 7/10), ("DRESSING", 7/10)]

/-- The `agent_evals` dict of `coordinate`: built by iterating the list
and overwriting, so a lookup returns the last evaluation carrying the
name. -/
def agent_evals_lookup (evaluations : List AgentEval) (name : String) : Option AgentEval :=
  evaluations.foldl (fun acc ev => if ev.agent = name then some ev else acc) none

/-- The loop of `_calculate_weighted_confidence`, carrying `weighted_sum`
and `total_weight` over the `weights.items()` iteration. -/
def weighted_confidence_loop (evaluations : List AgentEval) :
    List (String × ℚ) → ℚ → ℚ → ℚ × ℚ
  | [], weighted_sum, total_weight => (weighted_sum, total_weight)
  | aw :: rest, weighted_sum, total_weight =>
    match agent_evals_lookup evaluations aw.1 with
    | some ev =>
        weighted_confidence_loop evaluations rest
          (weighted_sum + ev.confidence * aw.2) (total_weight + aw.2)
    | none => weighted_confidence_loop evaluations rest weighted_sum total_weight

/-- `_calculate_weighted_confidence` from `coordinator.py`: weighted
average of the confidences of the agents present, `0.0` when no weighted
agent is present. -/
def calculate_weighted_confidence (evaluations : List AgentEval)
    (weights : List (String × ℚ)) : ℚ :=
  let acc := weighted_confidence_loop evaluations weights 0 0
  if acc.2 > 0 then acc.1 / acc.2 else 0

/-- Python `str.title()` restricted to the single lowercase words used as
agent names here ("communication", "knowledge", "clinical"), where it
equals capitalisation of the first letter. -/
def pyTitle (s : String) : String := s.capitalize

/-- Stable insertion into a weight list sorted by descending weight: an
earlier element stays in front of later elements of equal weight, matching
Python's stable `sorted(..., key=lambda x: x[1], reverse=True)`. -/
def insertByWeightDesc (x : String × ℚ) : List (String × ℚ) → List (String × ℚ)
  | [] => [x]
  | y :: t => if x.2 ≥ y.2 then x :: y :: t else y :: insertByWeightDesc x t

/-- `sorted(weights.items(), key=lambda x: x[1], reverse=True)`. -/
def sortByWeightDesc (l : List (String × ℚ)) : List (String × ℚ) :=
  l.foldr insertByWeightDesc []

/-- The `step_feedback` record produced by `_aggregate_step_feedback`. -/
structure StepFeedback where
  strengths : List String
  issues_detected : List String
  missed_points : List String
deriving DecidableEq

/-- The loop of `_aggregate_step_feedback`: agents visited in descending
weight order, absent agents skipped, and only agents of weight strictly
above `0.1` contribute, each entry prefixed with the titled agent name. -/
def step_feedback_loop (evaluations : List AgentEval) :
    List (String × ℚ) → List String → List String → List String →
    List String × List String × List String
  | [], all_strengths, all_issues, all_missed => (all_strengths, all_issues, all_missed)
  | aw :: rest, all_strengths, all_issues, all_missed =>
    match agent_evals_lookup evaluations aw.1 with
    | none => step_feedback_loop evaluations rest all_strengths all_issues all_missed
    | some ev =>
      if aw.2 > 1/10 then
        step_feedback_loop evaluations rest
          (all_strengths ++ ev.strengths.map (fun s => "[" ++ pyTitle aw.1 ++ "] " ++ s))
          (all_issues ++ ev.issues_detected.map (fun i => "[" ++ pyTitle aw.1 ++ "] " ++ i))
          (all_missed ++ ev.missed_points.map (fun m => "[" ++ pyTitle aw.1 ++ "] " ++ m))
      else step_feedback_loop evaluations rest all_strengths all_issues all_missed

/-- `_aggregate_step_feedback` from `coordinator.py`. -/
def aggregate_step_feedback (evaluations : List AgentEval)
    (weights : List (String × ℚ)) : StepFeedback :=
  let acc := step_feedback_loop evaluations (sortByWeightDesc weights) [] [] []
  { strengths := acc.1, issues_detected := acc.2.1, missed_points := acc.2.2 }

/-- Python `int(q)` for the nonnegative weights used here (truncation
toward zero equals the floor on nonnegative arguments). -/
def pyInt (q : ℚ) : ℤ := ⌊q⌋

/-- The loop of `_generate_overall_feedback` accumulating the feedback
parts. -/
def overall_feedback_loop (evaluations : List AgentEval) :
    List (String × ℚ) → List String → List String
  | [], feedback_parts => feedback_parts
  | aw :: rest, feedback_parts =>
    match agent_evals_lookup evaluations aw.1 with
    | none => overall_feedback_loop evaluations rest feedback_parts
    | some ev =>
      if ev.explanation ≠ "" ∧ aw.2 > 1/10 then
        overall_feedback_loop evaluations rest
          (feedback_parts ++
            [pyTitle aw.1 ++ " (" ++ toString (pyInt (aw.2 * 100)) ++ "%): " ++
              ev.explanation])
      else overall_feedback_loop evaluations rest feedback_parts

/-- `_generate_overall_feedback` from `coordinator.py`. -/
def generate_overall_feedback (evaluations : List AgentEval) (current_step : String)
    (weights : List (String × ℚ)) : String :=
  let feedback_parts :=
    overall_feedback_loop evaluations (sortByWeightDesc weights)
      ["Step: " ++ current_step]
  if feedback_parts.length > 1 then String.intercalate " | " feedback_parts
  else "No detailed feedback available"

/-- The fixed safety keywords of `_check_critical_issues`. -/
def critical_keywords : List String := ["unsafe", "dangerous", "contraindicated", "error"]

/-- `_check_critical_issues` from `coordinator.py`: only the dominant
(first maximal-weight) agent of the step is examined; it is critical when
it reports more than two issues or any issue text contains a safety
keyword (case-insensitive substring). -/
def check_critical_issues (evaluations : List AgentEval) (current_step : String) : Bool :=
  let weights := (List.lookup current_step STEP_WEIGHTS).getD []
  match pyMaxByVal weights with
  | none => false
  | some dominant =>
    match agent_evals_lookup evaluations dominant.1 with
    | none => false
    | some ev =>
      if ev.issues_detected.length > 2 then true
      else ev.issues_detected.any (fun issue =>
        critical_keywords.any (fun keyword => strContainsSub (pyLower issue) keyword))

/-- `_assess_readiness` from `coordinator.py`. -/
def assess_readiness (evaluations : List AgentEval) (weighted_confidence : ℚ)
    (threshold : ℚ) (current_step : String) : Bool :=
  if weighted_confidence < threshold then false
  else if check_critical_issues evaluations current_step then false
  else true

/-- One entry of the `agent_contributions` transparency record. -/
structure Contribution where
  weight : ℚ
  confidence : ℚ
  strengths_count : ℕ
  issues_count : ℕ
  missed_count : ℕ
deriving DecidableEq

/-- `_track_agent_contributions` from `coordinator.py`. -/
def track_agent_contributions (evaluations : List AgentEval)
    (weights : List (String × ℚ)) : List (String × Contribution) :=
  weights.foldl
    (fun contributions aw =>
      match agent_evals_lookup evaluations aw.1 with
      | none => contributions
      | some ev =>
        contributions ++
          [(aw.1,
            { weight := aw.2
              confidence := ev.confidence
              strengths_count := ev.strengths.length
              issues_count := ev.issues_detected.length
              missed_count := ev.missed_points.length })])
    []

/-- The result dict of `coordinate`.  The empty-input branch of the
Python code returns a dict without a `current_step` key and with empty
mappings for `step_feedback` and `agent_contributions`; this is modelled
by `current_step = none` and the empty records. -/
structure CoordinateResult where
  step_feedback : StepFeedback
  overall_feedback : String
  readiness_for_next_step : Bool
  aggregated_confidence : ℚ
  agent_contributions : List (String × Contribution)
  current_step : Option String
deriving DecidableEq

/-- `coordinate` from `coordinator.py`: empty input short-circuits to a
not-ready result; an unknown step is replaced by `"HISTORY"` before any
table lookup. -/
def coordinate (evaluations : List AgentEval) (current_step : String) : CoordinateResult :=
  if evaluations.isEmpty then
    { step_feedback := ⟨[], [], []⟩
      overall_feedback := "No evaluations provided"
      readiness_for_next_step := false
      aggregated_confidence := 0
      agent_contributions := []
      current_step := none }
  else
    let step := if (List.lookup current_step STEP_WEIGHTS).isSome then current_step
                else "HISTORY"
    let weights := (List.lookup step STEP_WEIGHTS).getD []
    let threshold := (List.lookup step READINESS_THRESHOLDS).getD 0
    let weighted_confidence := calculate_weighted_confidence evaluations weights
    { step_feedback := aggregate_step_feedback evaluations weights
      overall_feedback := generate_overall_feedback evaluations step weights
      readiness_for_next_step :=
        assess_readiness evaluations weighted_confidence threshold step
      aggregated_confidence := round3 weighted_confidence
      agent_contributions := track_agent_contributions evaluations weights
      current_step := some step }

end coordinator

namespace session

/-- Modelled from the spec: `app/core/state_machine.py` (imported by the
session manager and the API routes but absent from the sources) defines
the fixed step order HISTORY → ASSESSMENT → CLEANING → DRESSING, and
`next_step` fails with an out-of-range condition on the terminal step
DRESSING; the failure is represented here as `none`, matching the
`except` handlers wrapped around the call sites. -/
def next_step : String → Option String
  | "HISTORY" => some "ASSESSMENT"
  | "ASSESSMENT" => some "CLEANING"
  | "CLEANING" => some "DRESSING"
  | _ => none

/-- The readiness block of the VR-formatted coordinator output that
`process_step_result` reads (`readiness.ready_for_next_step`,
`readiness.blocking_issues`, `readiness.retry_instructions`); the output
is also returned whole as the `feedback` of every decision. -/
structure VROutput where
  ready_for_next_step : Bool
  blocking_issues : List String
  retry_instructions : String := ""
deriving DecidableEq

/-- The per-session state touched by the progression gate, from the
session dict created in `session_manager.py`. -/
structure SessionState where
  current_step : String
  attempt_count : List (String × ℕ)
  locked_step : Bool
  last_evaluation : Option VROutput
deriving DecidableEq

/-- `lock_current_step` from `session_manager.py`. -/
def lock_current_step (s : SessionState) : SessionState :=
  { s with locked_step := true }

/-- `increment_attempt` from `session_manager.py`:
`attempt_count[step] = attempt_count.get(step, 0) + 1` at the current
step. -/
def increment_attempt (s : SessionState) : SessionState :=
  let n := (List.lookup s.current_step s.attempt_count).getD 0 + 1
  { s with attempt_count := dictInsert s.attempt_count s.current_step n }

/-- `reset_attempts` from `session_manager.py`: sets the attempt count of
the session's (current) step to `0`. -/
def reset_attempts (s : SessionState) : SessionState :=
  { s with attempt_count := dictInsert s.attempt_count s.current_step 0 }

/-- `store_last_evaluation` from `session_manager.py`. -/
def store_last_evaluation (s : SessionState) (evaluation : VROutput) : SessionState :=
  { s with last_evaluation := some evaluation }

/-- `advance_step` from `session_manager.py` (the second, lock-aware
definition, which shadows the earlier one): a locked session is returned
unchanged with `None`; otherwise the step advances and the lock is
cleared, and a failing `next_step` (terminal step) is caught, returning
`None` with the session unchanged. -/
def advance_step (s : SessionState) : SessionState × Option String :=
  if s.locked_step then (s, none)
  else
    match next_step s.current_step with
    | some new_step => ({ s with current_step := new_step, locked_step := false }, some new_step)
    | none => (s, none)

/-- Python `str(x)` on an optional step, as interpolated into the
ADVANCED message (`None` when absent). -/
def pyStrOpt : Option String → String
  | some v => v
  | none => "None"

/-- The decision dict returned by `process_step_result`; absent keys of a
branch are `none`/`[]`. -/
structure StepResult where
  status : String
  previous_step : Option String := none
  current_step : Option String := none
  attempt_number : Option ℕ := none
  reason : Option String := none
  blocking_issues : List String := []
  retry_guidance : Option String := none
  message : Option String := none
  feedback : VROutput
deriving DecidableEq

/-- `process_step_result` from `evaluation_service.py`, for a session
that exists in the store (the not-found path raises and is outside the
claims).  The Python function mutates the very dict it fetched, so reads
of `session["current_step"]` after `advance_step`/`increment_attempt`
observe the mutated values; the state threading below reproduces that
aliasing. -/
def process_step_result (session : SessionState) (coordinator_output : VROutput) :
    SessionState × StepResult :=
  let s := store_last_evaluation session coordinator_output
  if ¬ coordinator_output.blocking_issues.isEmpty then
    let s := lock_current_step s
    (s, { status := "LOCKED"
          current_step := some s.current_step
          reason := some "Critical safety issue detected"
          blocking_issues := coordinator_output.blocking_issues
          feedback := coordinator_output })
  else if ¬ coordinator_output.ready_for_next_step then
    let s := increment_attempt s
    let attempt_count := (List.lookup s.current_step s.attempt_count).getD 1
    (s, { status := "RETRY"
          current_step := some s.current_step
          attempt_number := some attempt_count
          retry_guidance := some coordinator_output.retry_instructions
          feedback := coordinator_output })
  else
    let advanced := advance_step s
    let s := reset_attempts advanced.1
    (s, { status := "ADVANCED"
          previous_step := some s.current_step
          current_step := advanced.2
          message := some ("Successfully advanced from " ++ s.current_step ++ " to " ++
            pyStrOpt advanced.2)
          feedback := coordinator_output })

end session

/-- Last record carrying the given agent name (spec §4.3 step 1: when
duplicate categories arrive, the later one wins). -/
def scoring_last_lookup (evaluations : List scoring.EvaluatorResponse) (name : String) :
    Option scoring.EvaluatorResponse :=
  evaluations.foldl (fun acc ev => if ev.agent_name = name then some ev else acc) none

/-- Spec-claimed blocking rule (claim C2, spec §4.3 step 3), stated from
the spec's words for comparison with `scoring.check_readiness`: the
records with verdict Inappropriate for which the spec says a blocking
issue is appended — clinical at CLEANING/DRESSING, or more than two
issues from the step's dominant (maximum-weight) category, or a safety
keyword in some issue text. -/
def specBlockingRecords (evaluations : List scoring.EvaluatorResponse) (step : String) :
    List scoring.EvaluatorResponse :=
  evaluations.filter (fun ev =>
    ev.verdict == "Inappropriate" &&
    (((step == "CLEANING" || step == "DRESSING") && ev.agent_name == "ClinicalAgent") ||
     (decide (ev.issues_detected.length > 2) &&
      decide (some ev.agent_name =
        (pyMaxByVal ((List.lookup step scoring.STEP_WEIGHTS).getD [])).map Prod.fst)) ||
     ev.issues_detected.any (fun issue =>
       coordinator.critical_keywords.any (fun keyword =>
         strContainsSub (pyLower issue) keyword))))

/-- Spec-claimed composite (claim C3), stated from the spec's words for
comparison with `scoring.aggregate_scores`: weighted sum over the
categories present, divided by the total weight of the present
categories. -/
def specNormalizedComposite (evaluations : List scoring.EvaluatorResponse)
    (step : String) : ℚ :=
  let weights := (List.lookup step scoring.STEP_WEIGHTS).getD []
  let present := weights.filter (fun aw =>
    evaluations.any (fun ev => ev.agent_name == aw.1))
  let total := (present.map Prod.snd).sum
  let num := (present.map (fun aw =>
    match scoring_last_lookup evaluations aw.1 with
    | some ev => scoring.score_single_evaluation ev * aw.2
    | none => 0)).sum
  if total > 0 then num / total else 0

/-- Confidence of the evaluation registered under a name in the
coordinator's `agent_evals` dict (`0` when absent); used only to state
the characterization of `_calculate_weighted_confidence`. -/
def lookup_confidence (evaluations : List coordinator.AgentEval) (name : String) : ℚ :=
  match coordinator.agent_evals_lookup evaluations name with
  | some ev => ev.confidence
  | none => 0

/-- The safety loop of `check_readiness` produces exactly one message per
record with an Inappropriate verdict from the ClinicalAgent during a
CLEANING/DRESSING step, in record order. -/
theorem blocking_loop_eq (current_step : String)
    (evaluations : List scoring.EvaluatorResponse) :
    scoring.blocking_loop current_step evaluations =
      (evaluations.filter (fun ev =>
        ev.verdict == "Inappropriate" &&
        (current_step == "CLEANING" || current_step == "DRESSING") &&
        ev.agent_name == "ClinicalAgent")).map
        (fun ev => "Critical clinical issue detected by " ++ ev.agent_name) := by
  induction evaluations with
  | nil => rfl
  | cons ev rest ih =>
    cases h : (ev.verdict == "Inappropriate" &&
        (current_step == "CLEANING" || current_step == "DRESSING") &&
        ev.agent_name == "ClinicalAgent") <;>
      simp [scoring.blocking_loop, h, List.filter_cons, ih]

/-- The running composite of the `aggregate_scores` loop is the weighted
sum of the scores. -/
theorem aggregate_loop_snd (weights : List (String × ℚ))
    (evaluations : List scoring.EvaluatorResponse)
    (agent_scores : List (String × ℚ)) (composite_score : ℚ) :
    (scoring.aggregate_loop weights evaluations agent_scores composite_score).2 =
      composite_score + (evaluations.map (fun ev =>
        scoring.score_single_evaluation ev *
          (List.lookup ev.agent_name weights).getD 0)).sum := by
  induction evaluations generalizing agent_scores composite_score with
  | nil => simp [scoring.aggregate_loop]
  | cons ev rest ih =>
    simp only [scoring.aggregate_loop, ih, List.map_cons, List.sum_cons]
    ring

/-- The `_calculate_weighted_confidence` loop accumulates the weighted
confidences and the total weight of precisely the weighted agents that
are present. -/
theorem weighted_confidence_loop_eq (evaluations : List coordinator.AgentEval)
    (weights : List (String × ℚ)) (weighted_sum total_weight : ℚ) :
    coordinator.weighted_confidence_loop evaluations weights weighted_sum total_weight =
      (weighted_sum + ((weights.filter (fun aw =>
          (coordinator.agent_evals_lookup evaluations aw.1).isSome)).map
          (fun aw => lookup_confidence evaluations aw.1 * aw.2)).sum,
       total_weight + ((weights.filter (fun aw =>
          (coordinator.agent_evals_lookup evaluations aw.1).isSome)).map
          Prod.snd).sum) := by
  induction weights generalizing weighted_sum total_weight with
  | nil => simp [coordinator.weighted_confidence_loop]
  | cons aw rest ih =>
    cases h : coordinator.agent_evals_lookup evaluations aw.1 with
    | none =>
      simp [coordinator.weighted_confidence_loop, h, List.filter_cons, ih]
    | some ev =>
      simp only [coordinator.weighted_confidence_loop, h, List.filter_cons,
        Option.isSome_some, if_pos, List.map_cons, List.sum_cons, ih,
        lookup_confidence, Prod.mk.injEq]
      constructor <;> ring

/-- Looking up a key after a Python-dict insert of that key yields the
inserted value. -/
theorem lookup_dictInsert_self {α : Type} (m : List (String × α)) (k : String) (v : α) :
    List.lookup k (dictInsert m k v) = some v := by
  induction m with
  | nil => simp [dictInsert, List.lookup]
  | cons p rest ih =>
    by_cases h : p.1 = k
    · simp [dictInsert, h, List.lookup]
    · simp only [dictInsert, if_neg h]
      have hbeq : (k == p.1) = false := by
        simp [Ne.symm h]
      simp [List.lookup, hbeq, ih]

/-- Rounding zero to three decimals gives zero. -/
theorem round3_zero : round3 0 = 0 := by
  norm_num [round3, pyRoundHalfEven]

/-- Claim C1: for every sequence of evaluation records, for step CLEANING
or DRESSING, if some record has verdict Inappropriate and comes from the
ClinicalAgent, then `check_readiness` returns
`ready_for_next_step = false`, regardless of the composite score. -/
theorem C1_safety_veto (evaluations : List scoring.EvaluatorResponse)
    (current_step : String) (composite_score : ℚ)
    (hstep : current_step = "CLEANING" ∨ current_step = "DRESSING")
    (hrec : ∃ ev ∈ evaluations,
      ev.verdict = "Inappropriate" ∧ ev.agent_name = "ClinicalAgent") :
    (scoring.check_readiness evaluations current_step
      composite_score).ready_for_next_step = false := by
  obtain ⟨ev, hmem, hv, ha⟩ := hrec
  have hp : (ev.verdict == "Inappropriate" &&
      (current_step == "CLEANING" || current_step == "DRESSING") &&
      ev.agent_name == "ClinicalAgent") = true := by
    rcases hstep with h | h <;> simp [hv, ha, h]
  have hev : ev ∈ evaluations.filter (fun ev =>
      ev.verdict == "Inappropriate" &&
      (current_step == "CLEANING" || current_step == "DRESSING") &&
      ev.agent_name == "ClinicalAgent") := List.mem_filter.mpr ⟨hmem, hp⟩
  have hb : scoring.blocking_loop current_step evaluations ≠ [] := by
    rw [blocking_loop_eq]
    intro hcontra
    rw [List.map_eq_nil_iff] at hcontra
    rw [hcontra] at hev
    exact List.not_mem_nil ev hev
  cases hbl : scoring.blocking_loop current_step evaluations with
  | nil => exact absurd hbl hb
  | cons a t => simp [scoring.check_readiness, hbl]

/-- Claim C1 witness: a single Inappropriate clinical record at CLEANING
vetoes readiness even at composite score 100. -/
theorem C1_safety_veto_witness :
    ("CLEANING" = "CLEANING" ∨ "CLEANING" = "DRESSING") ∧
    (scoring.check_readiness
        [{ agent_name := "ClinicalAgent", verdict := "Inappropriate", confidence := 1 }]
        "CLEANING" 100).ready_for_next_step = false := by
  refine ⟨Or.inl rfl, C1_safety_veto _ _ _ (Or.inl rfl) ?_⟩
  exact ⟨_, List.Mem.head _, rfl, rfl⟩

/-- Claim C2 counterexample: a record with verdict Inappropriate whose
issue text contains the safety keyword "unsafe" (claim condition (iii))
at step HISTORY is selected by the spec's blocking rule, yet
`check_readiness` appends no blocking issue for it. -/
theorem C2_counterexample :
    (specBlockingRecords
        [{ agent_name := "CommunicationAgent", verdict := "Inappropriate",
           confidence := 1, issues_detected := ["unsafe approach"] }]
        "HISTORY").length = 1 ∧
    (scoring.check_readiness
        [{ agent_name := "CommunicationAgent", verdict := "Inappropriate",
           confidence := 1, issues_detected := ["unsafe approach"] }]
        "HISTORY" 0).blocking_issues = [] := by
  constructor <;> decide

/-- Claim C2 amended: `check_readiness` appends a blocking issue exactly
for each record with verdict Inappropriate from the ClinicalAgent at step
CLEANING or DRESSING (one message per such record, in order); the
issue-count and safety-keyword conditions contribute no blocking issues
here. -/
theorem C2_amended (evaluations : List scoring.EvaluatorResponse)
    (current_step : String) (composite_score : ℚ) :
    (scoring.check_readiness evaluations current_step composite_score).blocking_issues =
      (evaluations.filter (fun ev =>
        ev.verdict == "Inappropriate" &&
        (current_step == "CLEANING" || current_step == "DRESSING") &&
        ev.agent_name == "ClinicalAgent")).map
        (fun ev => "Critical clinical issue detected by " ++ ev.agent_name) := by
  simp [scoring.check_readiness, blocking_loop_eq]

/-- Claim C3 counterexample: with a single Communication record with
verdict Appropriate and confidence 1 at HISTORY, `aggregate_scores`
returns composite 1/2 (the bare weighted sum) while the spec's
present-weight normalization would give 1; the missing evaluators do drag
the composite down. -/
theorem C3_counterexample :
    (scoring.aggregate_scores
        [{ agent_name := "CommunicationAgent", verdict := "Appropriate", confidence := 1 }]
        "HISTORY").composite_score = 1/2 ∧
    specNormalizedComposite
        [{ agent_name := "CommunicationAgent", verdict := "Appropriate", confidence := 1 }]
        "HISTORY" = 1 ∧
    (scoring.aggregate_scores
        [{ agent_name := "CommunicationAgent", verdict := "Appropriate", confidence := 1 }]
        "HISTORY").composite_score ≠
      specNormalizedComposite
        [{ agent_name := "CommunicationAgent", verdict := "Appropriate", confidence := 1 }]
        "HISTORY" := by
  have h1 : (scoring.aggregate_scores
      [{ agent_name := "CommunicationAgent", verdict := "Appropriate", confidence := 1 }]
      "HISTORY").composite_score = 1/2 := by
    simp only [scoring.aggregate_scores, scoring.aggregate_loop,
      scoring.score_single_evaluation, scoring.VERDICT_SCORE_MAP, scoring.STEP_WEIGHTS,
      List.lookup, dictInsert, round3, pyRoundHalfEven]
    try norm_num
  have h2 : specNormalizedComposite
      [{ agent_name := "CommunicationAgent", verdict := "Appropriate", confidence := 1 }]
      "HISTORY" = 1 := by
    simp only [specNormalizedComposite, scoring_last_lookup, scoring.STEP_WEIGHTS,
      scoring.score_single_evaluation, scoring.VERDICT_SCORE_MAP, List.lookup]
    simp
    try norm_num
  refine ⟨h1, h2, ?_⟩
  rw [h1, h2]
  norm_num

/-- Claim C3 amended: `aggregate_scores` returns the plain weighted sum
of record scores (rounded to three decimals) with no normalization by
present weight; the normalization over present categories exists only in
the coordinator's `_calculate_weighted_confidence`, which averages raw
confidences of the present weighted agents. -/
theorem C3_amended :
    (∀ (evaluations : List scoring.EvaluatorResponse) (current_step : String),
      (scoring.aggregate_scores evaluations current_step).composite_score =
        round3 ((evaluations.map (fun ev =>
          scoring.score_single_evaluation ev *
            (List.lookup ev.agent_name
              ((List.lookup current_step scoring.STEP_WEIGHTS).getD [])).getD 0)).sum)) ∧
    (∀ (evaluations : List coordinator.AgentEval) (weights : List (String × ℚ)),
      coordinator.calculate_weighted_confidence evaluations weights =
        (if 0 < ((weights.filter (fun aw =>
              (coordinator.agent_evals_lookup evaluations aw.1).isSome)).map
              Prod.snd).sum then
          ((weights.filter (fun aw =>
              (coordinator.agent_evals_lookup evaluations aw.1).isSome)).map
              (fun aw => lookup_confidence evaluations aw.1 * aw.2)).sum /
            ((weights.filter (fun aw =>
              (coordinator.agent_evals_lookup evaluations aw.1).isSome)).map
              Prod.snd).sum
        else 0)) := by
  constructor
  · intro evaluations current_step
    simp [scoring.aggregate_scores, aggregate_loop_snd]
  · intro evaluations weights
    simp [coordinator.calculate_weighted_confidence, weighted_confidence_loop_eq]

/-- Claim C4: for every stored session and every result with non-empty
blocking issues, `process_step_result` locks the session, returns status
LOCKED with the blocking issues and the full feedback, and leaves
`current_step` unchanged. -/
theorem C4_locked_branch (s : session.SessionState) (out : session.VROutput)
    (h : out.blocking_issues ≠ []) :
    (session.process_step_result s out).2.status = "LOCKED" ∧
    (session.process_step_result s out).1.locked_step = true ∧
    (session.process_step_result s out).1.current_step = s.current_step ∧
    (session.process_step_result s out).2.current_step = some s.current_step ∧
    (session.process_step_result s out).2.blocking_issues = out.blocking_issues ∧
    (session.process_step_result s out).2.feedback = out := by
  have hne : out.blocking_issues.isEmpty = false := by
    cases hbl : out.blocking_issues with
    | nil => exact absurd hbl h
    | cons a t => rfl
  simp [session.process_step_result, session.store_last_evaluation,
    session.lock_current_step, hne]

/-- Claim C4 witness: a blocked CLEANING result locks a concrete
session. -/
theorem C4_locked_branch_witness :
    (["Critical clinical issue detected by ClinicalAgent"] ≠ ([] : List String)) ∧
    (session.process_step_result
        { current_step := "CLEANING", attempt_count := [], locked_step := false,
          last_evaluation := none }
        { ready_for_next_step := true,
          blocking_issues := ["Critical clinical issue detected by ClinicalAgent"] }).2.status =
      "LOCKED" := by
  exact ⟨by decide, (C4_locked_branch _ _ (by decide)).1⟩

/-- Claim C5: evaluating the gatekeeper at a ready, unblocked result from
a fresh unlocked session at HISTORY: the session does advance to
ASSESSMENT, the new step's attempt count is reset to 0 and the lock is
cleared, but the returned `previous_step` and message report the already
mutated step (ASSESSMENT, "from ASSESSMENT to ASSESSMENT"), because the
code reads `session["current_step"]` from the session dict it has just
mutated. -/
theorem C5_previous_step_aliasing :
    session.process_step_result
        { current_step := "HISTORY", attempt_count := [], locked_step := false,
          last_evaluation := none }
        { ready_for_next_step := true, blocking_issues := [] } =
      ({ current_step := "ASSESSMENT", attempt_count := [("ASSESSMENT", 0)],
         locked_step := false,
         last_evaluation :=
           some { ready_for_next_step := true, blocking_issues := [] } },
       { status := "ADVANCED", previous_step := some "ASSESSMENT",
         current_step := some "ASSESSMENT",
         message := some "Successfully advanced from ASSESSMENT to ASSESSMENT",
         feedback := { ready_for_next_step := true, blocking_issues := [] } }) := by
  decide

/-- Claim C6: the coordinator never fails on empty input and returns a
not-ready result with confidence 0.0 and an explanatory note, and the
gatekeeper, given a not-ready unblocked result, returns RETRY and
increments the current step's attempt count by exactly 1. -/
theorem C6_empty_input (current_step : String) (s : session.SessionState)
    (guidance : String) :
    (coordinator.coordinate [] current_step).readiness_for_next_step = false ∧
    (coordinator.coordinate [] current_step).aggregated_confidence = 0 ∧
    (coordinator.coordinate [] current_step).overall_feedback = "No evaluations provided" ∧
    (session.process_step_result s
        { ready_for_next_step := false, blocking_issues := [],
          retry_instructions := guidance }).2.status = "RETRY" ∧
    (List.lookup s.current_step
        (session.process_step_result s
          { ready_for_next_step := false, blocking_issues := [],
            retry_instructions := guidance }).1.attempt_count).getD 0 =
      (List.lookup s.current_step s.attempt_count).getD 0 + 1 := by
  refine ⟨rfl, rfl, rfl, rfl, ?_⟩
  simp [session.process_step_result, session.store_last_evaluation,
    session.increment_attempt, lookup_dictInsert_self]

/-- Claim C7 counterexample: advancing a session already at the terminal
step DRESSING with a ready, unblocked result is not surfaced as a
distinct session-complete outcome: the returned status is the ordinary
"ADVANCED" with a null next step and a message interpolating None. -/
theorem C7_counterexample :
    ((session.process_step_result
        { current_step := "DRESSING", attempt_count := [], locked_step := false,
          last_evaluation := none }
        { ready_for_next_step := true, blocking_issues := [] }).2.status = "ADVANCED") ∧
    ((session.process_step_result
        { current_step := "DRESSING", attempt_count := [], locked_step := false,
          last_evaluation := none }
        { ready_for_next_step := true, blocking_issues := [] }).2.current_step = none) ∧
    ((session.process_step_result
        { current_step := "DRESSING", attempt_count := [], locked_step := false,
          last_evaluation := none }
        { ready_for_next_step := true, blocking_issues := [] }).2.message =
      some "Successfully advanced from DRESSING to None") := by
  refine ⟨rfl, rfl, rfl⟩

/-- Claim C7 amended: the state machine has no successor of DRESSING, and
a ready, unblocked advancement attempt at DRESSING leaves the session's
step unchanged and never yields a valid next step and is never RETRY, but
it is reported with the ordinary ADVANCED status carrying a null step
rather than a distinct session-complete outcome. -/
theorem C7_amended (s : session.SessionState) (out : session.VROutput)
    (h1 : s.current_step = "DRESSING") (h2 : out.blocking_issues = [])
    (h3 : out.ready_for_next_step = true) :
    session.next_step "DRESSING" = none ∧
    session.advance_step s = (s, none) ∧
    (session.process_step_result s out).2.status = "ADVANCED" ∧
    (session.process_step_result s out).2.current_step = none ∧
    (session.process_step_result s out).2.status ≠ "RETRY" ∧
    (session.process_step_result s out).1.current_step = s.current_step := by
  have hns : session.next_step s.current_step = none := by rw [h1]; rfl
  have hadv : ∀ s' : session.SessionState, s'.current_step = s.current_step →
      session.advance_step s' = (s', none) := by
    intro s' hs'
    by_cases hl : s'.locked_step <;>
      simp [session.advance_step, hl, hs', hns]
  refine ⟨rfl, hadv s rfl, ?_, ?_, ?_, ?_⟩ <;>
    simp [session.process_step_result, h2, h3, session.store_last_evaluation,
      hadv { s with last_evaluation := some out } rfl, session.reset_attempts]

/-- Claim C7 witness: the amended behaviour at a concrete session at
DRESSING. -/
theorem C7_amended_witness :
    (({ current_step := "DRESSING", attempt_count := [], locked_step := false,
        last_evaluation := none } : session.SessionState).current_step = "DRESSING") ∧
    (session.process_step_result
        { current_step := "DRESSING", attempt_count := [], locked_step := false,
          last_evaluation := none }
        { ready_for_next_step := true, blocking_issues := [] }).2.current_step = none := by
  exact ⟨rfl, (C7_amended _ _ rfl rfl rfl).2.2.2.1⟩

/-- Claim C8 counterexample: for the unknown step "VITALS" the scoring
module does not fall back to the HISTORY profile: `aggregate_scores` uses
an empty weight table (composite 0 instead of HISTORY's 1/2 on the same
record) and `check_readiness` uses threshold 1.0, so a composite of 0.7
is ready at HISTORY but not at the unknown step. -/
theorem C8_counterexample :
    (scoring.aggregate_scores
        [{ agent_name := "CommunicationAgent", verdict := "Appropriate", confidence := 1 }]
        "VITALS").composite_score = 0 ∧
    (scoring.aggregate_scores
        [{ agent_name := "CommunicationAgent", verdict := "Appropriate", confidence := 1 }]
        "HISTORY").composite_score = 1/2 ∧
    (scoring.check_readiness [] "VITALS" (7/10)).ready_for_next_step = false ∧
    (scoring.check_readiness [] "HISTORY" (7/10)).ready_for_next_step = true := by
  refine ⟨?_, ?_, ?_, ?_⟩ <;>
    · simp only [scoring.aggregate_scores, scoring.aggregate_loop,
        scoring.score_single_evaluation, scoring.VERDICT_SCORE_MAP,
        scoring.STEP_WEIGHTS, scoring.STEP_THRESHOLD, scoring.check_readiness,
        scoring.blocking_loop, List.lookup, dictInsert, round3, pyRoundHalfEven]
      try simp
      try norm_num

/-- Claim C8 amended: the coordinator does fall back to the HISTORY
profile on an unknown step (its whole result coincides with the HISTORY
result on the same records), but the scoring module does not: for an
unknown step `aggregate_scores` falls back to an empty weight table
(composite score 0) and `check_readiness` to the default threshold
1.0. -/
theorem C8_amended (step : String)
    (h1 : List.lookup step coordinator.STEP_WEIGHTS = none)
    (h2 : List.lookup step scoring.STEP_WEIGHTS = none)
    (h3 : List.lookup step scoring.STEP_THRESHOLD = none) :
    (∀ evaluations : List coordinator.AgentEval,
      coordinator.coordinate evaluations step =
        coordinator.coordinate evaluations "HISTORY") ∧
    (∀ evaluations : List scoring.EvaluatorResponse,
      (scoring.aggregate_scores evaluations step).composite_score = 0) ∧
    (∀ (evaluations : List scoring.EvaluatorResponse) (composite_score : ℚ),
      (scoring.check_readiness evaluations step composite_score).threshold = 1) := by
  refine ⟨?_, ?_, ?_⟩
  · intro evaluations
    unfold coordinator.coordinate
    simp [h1]
  · intro evaluations
    simp only [scoring.aggregate_scores, h2, Option.getD_none, aggregate_loop_snd]
    simp [List.lookup, round3_zero]
  · intro evaluations composite_score
    simp [scoring.check_readiness, h3]

/-- Claim C8 witness: the amended fallback at the concrete unknown step
"VITALS". -/
theorem C8_amended_witness :
    List.lookup "VITALS" coordinator.STEP_WEIGHTS = none ∧
    coordinator.coordinate [] "VITALS" = coordinator.coordinate [] "HISTORY" := by
  exact ⟨rfl, (C8_amended "VITALS" rfl rfl rfl).1 []⟩

/-- Claim C9: the score of one evaluation is the verdict's base value
(Appropriate 1.0, Partially Appropriate 0.6, Inappropriate 0.0, anything
else 0.0) times the record's confidence, for every record — the function
is total and never fails on an undefined verdict. -/
theorem C9_score_calculator (ev : scoring.EvaluatorResponse) :
    scoring.score_single_evaluation ev =
      (if ev.verdict = "Appropriate" then 1
       else if ev.verdict = "Partially Appropriate" then 3/5
       else 0) * ev.confidence := by
  by_cases h1 : ev.verdict = "Appropriate"
  · simp [scoring.score_single_evaluation, scoring.VERDICT_SCORE_MAP, List.lookup, h1]
  · by_cases h2 : ev.verdict = "Partially Appropriate"
    · simp [scoring.score_single_evaluation, scoring.VERDICT_SCORE_MAP, List.lookup,
        h1, h2]
    · by_cases h3 : ev.verdict = "Inappropriate"
      · simp [scoring.score_single_evaluation, scoring.VERDICT_SCORE_MAP, List.lookup,
          h1, h2, h3]
      · have b1 : (ev.verdict == "Appropriate") = false := by simp [h1]
        have b2 : (ev.verdict == "Partially Appropriate") = false := by simp [h2]
        have b3 : (ev.verdict == "Inappropriate") = false := by simp [h3]
        simp [scoring.score_single_evaluation, scoring.VERDICT_SCORE_MAP, List.lookup,
          b1, b2, b3, h1, h2]

/-- Claim C10: a locked session never advances: `advance_step` returns
the session unchanged with `None`, and for any evaluation result —
including a ready one — the gatekeeper leaves the session's step
unchanged and the lock set. -/
theorem C10_locked_no_advance (s : session.SessionState) (h : s.locked_step = true) :
    session.advance_step s = (s, none) ∧
    ∀ out : session.VROutput,
      (session.process_step_result s out).1.current_step = s.current_step ∧
      (session.process_step_result s out).1.locked_step = true := by
  refine ⟨by simp [session.advance_step, h], ?_⟩
  intro out
  by_cases hb : out.blocking_issues.isEmpty <;>
    by_cases hr : out.ready_for_next_step <;>
      simp [session.process_step_result, session.store_last_evaluation,
        session.lock_current_step, session.increment_attempt, session.reset_attempts,
        session.advance_step, h, hb, hr]

/-- Claim C10 witness: a concrete locked session does not advance. -/
theorem C10_locked_no_advance_witness :
    (({ current_step := "HISTORY", attempt_count := [], locked_step := true,
        last_evaluation := none } : session.SessionState).locked_step = true) ∧
    session.advance_step
        { current_step := "HISTORY", attempt_count := [], locked_step := true,
          last_evaluation := none } =
      ({ current_step := "HISTORY", attempt_count := [], locked_step := true,
         last_evaluation := none }, none) := by
  exact ⟨rfl, (C10_locked_no_advance _ rfl).1⟩

end WoundCareSim
